import Mathlib

/-!
# Verification of the image-converter batch pipeline

Shallow embedding of the Go repository `image_converter_go`:
the data model (`internal/types/types.go`), the geometry calculator
(`internal/converter/resize.go`), the format resolver
(`internal/converter/format.go`), the single-file converter and
batch statistics (`internal/converter/converter.go`), and the file
classifier (`internal/filesystem/filesystem.go`).

Go `int` is modelled as `ℤ`, Go `float64` arithmetic as exact `ℚ`
arithmetic (the specification states every rule over the reals), and
`math.Round` as round-half-away-from-zero on `ℚ`.  Fallible Go calls
(decode, encode, file creation) are modelled as `Except`-valued
functions; the external codec operations (decode, resample, encode) are
parameters, matching their "external collaborator" role.
-/

namespace ImageConverter

/-- `type ImageFormat string` (types.go): a string tag; the canonical
values are the five constants below. -/
abbrev ImageFormat := String

def FormatJPEG : ImageFormat := "jpeg"

def FormatPNG : ImageFormat := "png"

def FormatWebP : ImageFormat := "webp"

def FormatGIF : ImageFormat := "gif"

def FormatBMP : ImageFormat := "bmp"

/-- `types.ResizeSpec` (types.go): scale factor (0 = unset) and target
width/height in pixels (0 = unset). -/
structure ResizeSpec where
  Scale : ℚ
  Width : ℤ
  Height : ℤ
deriving Repr, DecidableEq

/-- `types.ConversionStats` (types.go): the four batch counters
(Go `int`). -/
structure ConversionStats where
  Total : ℤ
  Success : ℤ
  Failed : ℤ
  Skipped : ℤ
deriving Repr, DecidableEq

/-- `types.ConversionResult` (types.go): the per-file outcome value
returned by `ConvertImage`; the Go `Error error` field is modelled as
an optional cause string (`none` exactly on success). -/
structure ConversionResult where
  SourcePath : String
  OutputPath : String
  Success : Bool
  Error : Option String
deriving Repr, DecidableEq

/-- `types.Config` (types.go): the CLI configuration consumed by the
converter, populated by `internal/cli/parser.go`. -/
structure Config where
  InputDir : String
  OutputDir : String
  Scale : ℚ
  Width : ℤ
  Height : ℤ
  Format : String
  JPEGQuality : ℤ
deriving Repr, DecidableEq

/-- A decoded pixel buffer: dimensions plus an opaque pixel payload
(`image.Image` in Go; `Bounds().Dx()/Dy()` are `width`/`height`). -/
structure GoImage where
  width : ℤ
  height : ℤ
  data : List ℚ
deriving Repr, DecidableEq

/-- Go `math.Round`: round half away from zero. -/
def goRound (x : ℚ) : ℤ :=
  if 0 ≤ x then ⌊x + 1/2⌋ else -⌊-x + 1/2⌋

/-- `ResizeCalculator.CalculateOutputSize` (resize.go): priority order
scale, bounding box, width only, height only, identity. -/
def CalculateOutputSize (srcWidth srcHeight : ℤ) (rs : ResizeSpec) : ℤ × ℤ :=
  if 0 < rs.Scale then
    (goRound ((srcWidth : ℚ) * rs.Scale), goRound ((srcHeight : ℚ) * rs.Scale))
  else if 0 < rs.Width ∧ 0 < rs.Height then
    let scaleW : ℚ := (rs.Width : ℚ) / (srcWidth : ℚ)
    let scaleH : ℚ := (rs.Height : ℚ) / (srcHeight : ℚ)
    let scale : ℚ := min scaleW scaleH
    (goRound ((srcWidth : ℚ) * scale), goRound ((srcHeight : ℚ) * scale))
  else if 0 < rs.Width then
    (rs.Width, goRound ((srcHeight : ℚ) * ((rs.Width : ℚ) / (srcWidth : ℚ))))
  else if 0 < rs.Height then
    (goRound ((srcWidth : ℚ) * ((rs.Height : ℚ) / (srcHeight : ℚ))), rs.Height)
  else
    (srcWidth, srcHeight)

/-- `ResizeCalculator.CalculateOutputSizeFromImage` (resize.go). -/
def CalculateOutputSizeFromImage (img : GoImage) (rs : ResizeSpec) : ℤ × ℤ :=
  CalculateOutputSize img.width img.height rs

/-- `ResizeCalculator.ResizeImage` (resize.go).  The Catmull-Rom
resample (`draw.CatmullRom.Scale` into a fresh `image.NewRGBA` buffer)
is the external codec primitive, passed in as `resample`. -/
def ResizeImage (resample : GoImage → ℤ → ℤ → GoImage) (src : GoImage)
    (rs : ResizeSpec) : GoImage :=
  if rs.Scale = 0 ∧ rs.Width = 0 ∧ rs.Height = 0 then src
  else
    let dst := CalculateOutputSizeFromImage src rs
    if dst.1 = src.width ∧ dst.2 = src.height then src
    else resample src dst.1 dst.2

/-! ### Path helpers (Go `path/filepath`, unix rules) -/

/-- Go `strings.ToLower` (character-wise lower-casing; the inputs this
development feeds it are ASCII, where Go and `Char.toLower` agree). -/
def toLowerStr (s : String) : String :=
  String.mk (s.data.map Char.toLower)

/-- Whether a path begins with the unix path separator. -/
def isRooted (p : String) : Bool :=
  match p.data with
  | '/' :: _ => true
  | _ => false

/-- Split on `/` (the semantics of `strings.Split(s, "/")`), character
by character; `cur` holds the current element reversed. -/
def splitSlashAux : List Char → List Char → List String
  | [], cur => [String.mk cur.reverse]
  | c :: rest, cur =>
    if c = '/' then String.mk cur.reverse :: splitSlashAux rest []
    else splitSlashAux rest (c :: cur)

/-- Split a path on the unix separator. -/
def splitSlash (p : String) : List String := splitSlashAux p.data []

/-- Go `strings.TrimSuffix`: drop `suf` from the end of `s` when it is
a suffix, otherwise return `s` unchanged. -/
def goTrimSuffix (s suf : String) : String :=
  if suf.data.isSuffixOf s.data then
    String.mk (s.data.take (s.data.length - suf.data.length))
  else s

/-- Core loop of Go `filepath.Ext`: walk the path backwards (the input
here is the reversed character list); stop at the first `.`, returning
the extension, or at a path separator / the start, returning none. -/
def extAux : List Char → List Char → Option (List Char)
  | [], _ => none
  | c :: rest, acc =>
    if c = '.' then some (c :: acc)
    else if c = '/' then none
    else extAux rest (c :: acc)

/-- Go `filepath.Ext`: the suffix beginning at the final dot in the
final slash-separated element; empty if there is no dot. -/
def goExt (p : String) : String :=
  match extAux p.data.reverse [] with
  | some l => String.mk l
  | none => ""

/-- Go `filepath.Base`: strip trailing slashes, then keep the last
element; `"."` for the empty path, `"/"` if the path is all slashes. -/
def goBase (p : String) : String :=
  if p = "" then "."
  else
    let rev := p.data.reverse.dropWhile (fun c => c = '/')
    let name := (rev.takeWhile (fun c => c ≠ '/')).reverse
    if name = [] then "/" else String.mk name

/-- One step of Go `filepath.Clean`'s element processing: `..` pops the
last kept element (or is kept itself at the top of a relative path,
dropped at the root of a rooted path); other elements are kept.  The
accumulator is in reverse order. -/
def cleanFold (rooted : Bool) (acc : List String) (part : String) : List String :=
  if part = ".." then
    match acc with
    | [] => if rooted then [] else [".."]
    | last :: rest => if last = ".." then part :: acc else rest
  else part :: acc

/-- Go `filepath.Clean` (unix): collapse repeated slashes, drop `.`
elements, resolve `..`, returning `"."` or `"/"` when nothing is
left. -/
def goClean (p : String) : String :=
  if p = "" then "."
  else
    let rooted := isRooted p
    let parts := (splitSlash p).filter (fun s => s ≠ "" && s ≠ ".")
    let out := (parts.foldl (cleanFold rooted) []).reverse
    let joined := String.intercalate "/" out
    if rooted then (if joined = "" then "/" else "/" ++ joined)
    else (if joined = "" then "." else joined)

/-- Go `filepath.Join` on two components: skip leading empty
components, join with `/`, and `Clean` the result. -/
def goJoin (a b : String) : String :=
  if a ≠ "" then goClean (a ++ "/" ++ b)
  else if b ≠ "" then goClean b
  else ""

/-! ### Format detector (`internal/converter/format.go`) and file
classifier (`internal/filesystem/filesystem.go`) -/

/-- `FormatDetector.DetectFormat` (format.go): map the lower-cased file
extension to a format, or fail for an unsupported extension. -/
def DetectFormat (path : String) : Except String ImageFormat :=
  let ext := toLowerStr (goExt path)
  if ext = ".jpg" ∨ ext = ".jpeg" then Except.ok FormatJPEG
  else if ext = ".png" then Except.ok FormatPNG
  else if ext = ".webp" then Except.ok FormatWebP
  else if ext = ".gif" then Except.ok FormatGIF
  else if ext = ".bmp" then Except.ok FormatBMP
  else Except.error ("unsupported image format: " ++ ext)

/-- `FormatDetector.IsFormatSupported` (format.go). -/
def IsFormatSupported (format : String) : Bool :=
  ["jpeg", "jpg", "png", "webp", "gif", "bmp"].contains (toLowerStr format)

/-- `FormatDetector.NormalizeFormat` (format.go): lower-case, alias
`jpg` to `jpeg`, and pass everything else through unchanged (it never
fails). -/
def NormalizeFormat (format : String) : ImageFormat :=
  let n := toLowerStr format
  if n = "jpg" then FormatJPEG else n

/-- The extension allow-list of `FileSystemManager.IsImageFile`
(filesystem.go). -/
def imageExtensions : List String := [".jpg", ".jpeg", ".png", ".gif", ".bmp", ".webp"]

/-- `FileSystemManager.IsImageFile` (filesystem.go): classify by
lower-cased extension membership in the allow-list. -/
def IsImageFile (path : String) : Bool :=
  imageExtensions.contains (toLowerStr (goExt path))

/-- The `switch outputFormat` table inside
`FormatDetector.GenerateOutputFilename` (format.go); unknown formats
default to `.jpg`. -/
def canonicalExt (f : ImageFormat) : String :=
  if f = FormatJPEG then ".jpg"
  else if f = FormatPNG then ".png"
  else if f = FormatWebP then ".webp"
  else if f = FormatGIF then ".gif"
  else if f = FormatBMP then ".bmp"
  else ".jpg"

/-- `FormatDetector.GenerateOutputFilename` (format.go): keep the base
name without its extension and append the canonical extension of the
output format. -/
def GenerateOutputFilename (inputPath : String) (outputFormat : ImageFormat) : String :=
  let baseName := goBase inputPath
  let ext := goExt baseName
  let baseNameWithoutExt := goTrimSuffix baseName ext
  baseNameWithoutExt ++ canonicalExt outputFormat

/-- `FormatDetector.GenerateOutputPath` (format.go). -/
def GenerateOutputPath (inputPath outputDir : String) (outputFormat : ImageFormat) : String :=
  goJoin outputDir (GenerateOutputFilename inputPath outputFormat)

/-- The five canonical output formats (the spec's supported set). -/
def supportedOutputFormats : List ImageFormat :=
  [FormatJPEG, FormatPNG, FormatWebP, FormatGIF, FormatBMP]

/-! ### Single-file converter and batch statistics
(`internal/converter/converter.go`) -/

/-- Step 3 of `Converter.ConvertImage` (converter.go lines 62–75):
an explicitly configured format is normalized (never an error);
otherwise the format is detected from the source extension, wrapping a
detection failure. -/
def resolveOutputFormat (cfgFormat sourcePath : String) : Except String ImageFormat :=
  if cfgFormat ≠ "" then Except.ok (NormalizeFormat cfgFormat)
  else
    match DetectFormat sourcePath with
    | Except.error e => Except.error ("failed to detect format: " ++ e)
    | Except.ok f => Except.ok f

/-- `Converter.ConvertImage` (converter.go): load, resize, resolve the
output format, generate the output path, save.  The codec gateway
operations (decode = `loader`, resample, encode+write = `saver`) are
parameters; each failure short-circuits into a `ConversionResult` with
`Success = false` and a wrapped cause. -/
def ConvertImage (loader : String → Except String GoImage)
    (saver : GoImage → String → ImageFormat → ℤ → Except String Unit)
    (resample : GoImage → ℤ → ℤ → GoImage)
    (config : Config) (sourcePath outputDir : String) : ConversionResult :=
  match loader sourcePath with
  | Except.error e =>
      { SourcePath := sourcePath, OutputPath := "", Success := false,
        Error := some ("failed to load image: " ++ e) }
  | Except.ok img =>
      let resizeSpec : ResizeSpec := ⟨config.Scale, config.Width, config.Height⟩
      let resizedImg := ResizeImage resample img resizeSpec
      match resolveOutputFormat config.Format sourcePath with
      | Except.error e =>
          { SourcePath := sourcePath, OutputPath := "", Success := false,
            Error := some e }
      | Except.ok outputFormat =>
          let outputPath := GenerateOutputPath sourcePath outputDir outputFormat
          let quality := if config.JPEGQuality = 0 then 85 else config.JPEGQuality
          match saver resizedImg outputPath outputFormat quality with
          | Except.error e =>
              { SourcePath := sourcePath, OutputPath := outputPath, Success := false,
                Error := some ("failed to save image: " ++ e) }
          | Except.ok _ =>
              { SourcePath := sourcePath, OutputPath := outputPath, Success := true,
                Error := none }

/-- `ImageSaver.Save` (saver.go): create the output file (`create`
models `os.Create`), then dispatch on the format; the five supported
formats delegate to the codec encoders (`enc` models the
`saveJPEG`/`savePNG`/… helpers), anything else is the
unsupported-output-format error. -/
def goSave (create : String → Except String Unit)
    (enc : ImageFormat → GoImage → ℤ → Except String Unit)
    (img : GoImage) (path : String) (format : ImageFormat) (quality : ℤ) :
    Except String Unit :=
  match create path with
  | Except.error e => Except.error ("failed to create file: " ++ e)
  | Except.ok _ =>
    if format = FormatJPEG ∨ format = FormatPNG ∨ format = FormatWebP ∨
        format = FormatGIF ∨ format = FormatBMP then
      enc format img quality
    else Except.error ("unsupported output format: " ++ format)

/-- The zero-valued `types.ConversionStats` a fresh `Converter` starts
with. -/
def emptyStats : ConversionStats := ⟨0, 0, 0, 0⟩

/-- `Converter.UpdateStats` (converter.go): under the stats mutex,
increment `Total` and exactly one of `Success`/`Failed`. -/
def UpdateStats (stats : ConversionStats) (result : ConversionResult) : ConversionStats :=
  { stats with
    Total := stats.Total + 1,
    Success := if result.Success then stats.Success + 1 else stats.Success,
    Failed := if result.Success then stats.Failed else stats.Failed + 1 }

/-- `Converter.IncrementSkipped` (converter.go): under the stats mutex,
increment `Total` and `Skipped`. -/
def IncrementSkipped (stats : ConversionStats) : ConversionStats :=
  { stats with Total := stats.Total + 1, Skipped := stats.Skipped + 1 }

/-- A single serialized mutation of the shared stats: either the fold
of one conversion outcome (`UpdateStats`) or one skip decision
(`IncrementSkipped`).  The stats mutex serializes every concurrent
execution of `ProcessDirectory` into some list of these operations. -/
inductive StatsOp where
  | update : ConversionResult → StatsOp
  | skip : StatsOp

/-- Apply one serialized stats mutation. -/
def applyStatsOp (st : ConversionStats) : StatsOp → ConversionStats
  | StatsOp.update r => UpdateStats st r
  | StatsOp.skip => IncrementSkipped st

/-- First loop of `Converter.ProcessDirectory` (converter.go): walk the
scanned files in order, calling `IncrementSkipped` for each non-image
file (image files are collected for dispatch, which `List.filter`
reproduces). -/
def scanStats (isImage : String → Bool) : List String → ConversionStats → ConversionStats
  | [], st => st
  | f :: rest, st =>
      scanStats isImage rest (if isImage f then st else IncrementSkipped st)

/-- Drain phase of `Converter.ProcessDirectory`: each dispatched worker
runs `ConvertImage` on its file and folds the outcome with
`UpdateStats`; the mutex serializes the folds into the completion order
`order` (some permutation of the dispatched image files). -/
def drainStats (convert : String → ConversionResult) :
    List String → ConversionStats → ConversionStats
  | [], st => st
  | f :: rest, st => drainStats convert rest (UpdateStats st (convert f))

/-- `Converter.ProcessDirectory` (converter.go), observed through its
stats: skip counting over the scanned file list, then the worker-pool
drain folding one conversion outcome per image file in completion order
`order`. -/
def ProcessDirectoryStats (convert : String → ConversionResult)
    (isImage : String → Bool) (files order : List String) : ConversionStats :=
  drainStats convert order (scanStats isImage files emptyStats)

/-! ### Rounding lemmas -/

theorem goRound_intCast (n : ℤ) : goRound (n : ℚ) = n := by
  unfold goRound
  rcases le_or_lt 0 (n : ℚ) with h | h
  · rw [if_pos h]
    rw [show ((n : ℚ) + 1/2) = (1/2 : ℚ) + n by ring]
    rw [Int.floor_add_int]
    norm_num
  · rw [if_neg (not_le.mpr h)]
    rw [show (-(n : ℚ) + 1/2) = (1/2 : ℚ) + ((-n : ℤ) : ℚ) by push_cast; ring]
    rw [Int.floor_add_int]
    norm_num

theorem goRound_mono_of_nonneg {x y : ℚ} (hx : 0 ≤ x) (hxy : x ≤ y) :
    goRound x ≤ goRound y := by
  unfold goRound
  rw [if_pos hx, if_pos (le_trans hx hxy)]
  exact Int.floor_le_floor (by linarith)

theorem goRound_eq_zero_of_lt_half {x : ℚ} (hx : 0 ≤ x) (h : x < 1/2) :
    goRound x = 0 := by
  unfold goRound
  rw [if_pos hx]
  rw [Int.floor_eq_zero_iff]
  constructor
  · linarith
  · simpa using by linarith

/-! ### Batch statistics lemmas -/

theorem countP_add_countP_neg {α : Type} (l : List α) (p : α → Bool) :
    l.countP p + l.countP (fun a => !(p a)) = l.length := by
  induction l with
  | nil => simp
  | cons a t ih => by_cases h : p a <;> simp [List.countP_cons, h] <;> omega

theorem drainStats_fields (convert : String → ConversionResult) :
    ∀ (order : List String) (st : ConversionStats),
      (drainStats convert order st).Total = st.Total + order.length ∧
      (drainStats convert order st).Success =
        st.Success + (order.countP (fun f => (convert f).Success) : ℤ) ∧
      (drainStats convert order st).Failed =
        st.Failed + (order.countP (fun f => !((convert f).Success)) : ℤ) ∧
      (drainStats convert order st).Skipped = st.Skipped := by
  intro order
  induction order with
  | nil => intro st; simp [drainStats]
  | cons f rest ih =>
    intro st
    obtain ⟨h1, h2, h3, h4⟩ := ih (UpdateStats st (convert f))
    refine ⟨?_, ?_, ?_, ?_⟩ <;> simp only [drainStats]
    · rw [h1]; simp [UpdateStats]; push_cast; ring
    · rw [h2]
      by_cases hc : (convert f).Success <;>
        simp [UpdateStats, hc, List.countP_cons] <;> push_cast <;> ring
    · rw [h3]
      by_cases hc : (convert f).Success <;>
        simp [UpdateStats, hc, List.countP_cons] <;> push_cast <;> ring
    · rw [h4]; simp [UpdateStats]

theorem scanStats_fields (isImage : String → Bool) :
    ∀ (files : List String) (st : ConversionStats),
      (scanStats isImage files st).Total =
        st.Total + (files.countP (fun f => !(isImage f)) : ℤ) ∧
      (scanStats isImage files st).Skipped =
        st.Skipped + (files.countP (fun f => !(isImage f)) : ℤ) ∧
      (scanStats isImage files st).Success = st.Success ∧
      (scanStats isImage files st).Failed = st.Failed := by
  intro files
  induction files with
  | nil => intro st; simp [scanStats]
  | cons f rest ih =>
    intro st
    obtain ⟨h1, h2, h3, h4⟩ := ih (if isImage f then st else IncrementSkipped st)
    refine ⟨?_, ?_, ?_, ?_⟩ <;> simp only [scanStats]
    · rw [h1]
      by_cases hc : isImage f <;>
        simp [IncrementSkipped, hc, List.countP_cons] <;> push_cast <;> ring
    · rw [h2]
      by_cases hc : isImage f <;>
        simp [IncrementSkipped, hc, List.countP_cons] <;> push_cast <;> ring
    · rw [h3]; by_cases hc : isImage f <;> simp [IncrementSkipped, hc]
    · rw [h4]; by_cases hc : isImage f <;> simp [IncrementSkipped, hc]

theorem foldl_applyStatsOp_invariant (ops : List StatsOp) :
    ∀ st : ConversionStats, st.Total = st.Success + st.Failed + st.Skipped →
      (ops.foldl applyStatsOp st).Total =
        (ops.foldl applyStatsOp st).Success + (ops.foldl applyStatsOp st).Failed +
          (ops.foldl applyStatsOp st).Skipped := by
  induction ops with
  | nil => intro st h; simpa using h
  | cons op rest ih =>
    intro st h
    simp only [List.foldl_cons]
    apply ih
    cases op with
    | update r =>
        by_cases hr : r.Success <;> simp [applyStatsOp, UpdateStats, hr] <;> omega
    | skip => simp [applyStatsOp, IncrementSkipped]; omega

/-! ### Claim theorems: batch statistics -/

/-- C3: from the empty stats, any interleaving (serialized list) of
`UpdateStats` and `IncrementSkipped` operations preserves
`total = success + failed + skipped`, and each single operation
increments `Total` by exactly 1 and exactly one of the other three
counters by exactly 1. -/
theorem c3_stats_invariant (ops : List StatsOp) :
    ((ops.foldl applyStatsOp emptyStats).Total =
      (ops.foldl applyStatsOp emptyStats).Success +
        (ops.foldl applyStatsOp emptyStats).Failed +
        (ops.foldl applyStatsOp emptyStats).Skipped) ∧
    ∀ (st : ConversionStats) (op : StatsOp),
      (applyStatsOp st op).Total = st.Total + 1 ∧
      (((applyStatsOp st op).Success = st.Success + 1 ∧
        (applyStatsOp st op).Failed = st.Failed ∧
        (applyStatsOp st op).Skipped = st.Skipped) ∨
       ((applyStatsOp st op).Failed = st.Failed + 1 ∧
        (applyStatsOp st op).Success = st.Success ∧
        (applyStatsOp st op).Skipped = st.Skipped) ∨
       ((applyStatsOp st op).Skipped = st.Skipped + 1 ∧
        (applyStatsOp st op).Success = st.Success ∧
        (applyStatsOp st op).Failed = st.Failed)) := by
  constructor
  · exact foldl_applyStatsOp_invariant ops emptyStats (by simp [emptyStats])
  · intro st op
    cases op with
    | update r =>
        by_cases hr : r.Success
        · exact ⟨by simp [applyStatsOp, UpdateStats],
            Or.inl (by simp [applyStatsOp, UpdateStats, hr])⟩
        · exact ⟨by simp [applyStatsOp, UpdateStats],
            Or.inr (Or.inl (by simp [applyStatsOp, UpdateStats, hr]))⟩
    | skip =>
        exact ⟨by simp [applyStatsOp, IncrementSkipped],
          Or.inr (Or.inr (by simp [applyStatsOp, IncrementSkipped]))⟩

/-- C1: for any scanned file list, any classifier, any per-file
conversion outcome and any worker completion order, the final stats
count successes, failures and skips exactly, with
`Total = ` the number of scanned files; skips are decided by the
classifier alone (`convert` never appears in the skip or total
counts). -/
theorem c1_batch_stats_exact (convert : String → ConversionResult)
    (isImage : String → Bool) (files order : List String)
    (hperm : order.Perm (files.filter isImage)) :
    (ProcessDirectoryStats convert isImage files order).Success =
      (files.countP (fun f => isImage f && (convert f).Success) : ℤ) ∧
    (ProcessDirectoryStats convert isImage files order).Failed =
      (files.countP (fun f => isImage f && !((convert f).Success)) : ℤ) ∧
    (ProcessDirectoryStats convert isImage files order).Skipped =
      (files.countP (fun f => !(isImage f)) : ℤ) ∧
    (ProcessDirectoryStats convert isImage files order).Total = (files.length : ℤ) := by
  obtain ⟨d1, d2, d3, d4⟩ :=
    drainStats_fields convert order (scanStats isImage files emptyStats)
  obtain ⟨s1, s2, s3, s4⟩ := scanStats_fields isImage files emptyStats
  have hlen : order.length = files.countP isImage := by
    rw [hperm.length_eq, ← List.countP_eq_length_filter]
  refine ⟨?_, ?_, ?_, ?_⟩
  · unfold ProcessDirectoryStats
    rw [d2, s3]
    rw [hperm.countP_eq (fun f => (convert f).Success), List.countP_filter]
    simp [emptyStats, Bool.and_comm]
  · unfold ProcessDirectoryStats
    rw [d3, s4]
    rw [hperm.countP_eq (fun f => !((convert f).Success)), List.countP_filter]
    simp [emptyStats, Bool.and_comm]
  · unfold ProcessDirectoryStats
    rw [d4, s2]
    simp [emptyStats]
  · unfold ProcessDirectoryStats
    rw [d1, s1, hlen]
    have hsum := countP_add_countP_neg files isImage
    simp only [emptyStats]
    push_cast
    omega

/-- Witness for C1: files `a.png` (converts), `c.png` (fails),
`b.txt` (non-image), workers completing in reverse dispatch order. -/
theorem c1_batch_stats_exact_witness :
    (["c.png", "a.png"] : List String).Perm
      ((["a.png", "b.txt", "c.png"] : List String).filter (fun f => f ≠ "b.txt")) ∧
    (ProcessDirectoryStats (fun f => ⟨f, "", f = "a.png", none⟩)
        (fun f => f ≠ "b.txt") ["a.png", "b.txt", "c.png"] ["c.png", "a.png"]).Success =
      ((["a.png", "b.txt", "c.png"] : List String).countP
        (fun f => (f ≠ "b.txt" : Bool) && (f = "a.png" : Bool)) : ℤ) ∧
    (ProcessDirectoryStats (fun f => ⟨f, "", f = "a.png", none⟩)
        (fun f => f ≠ "b.txt") ["a.png", "b.txt", "c.png"] ["c.png", "a.png"]).Failed =
      ((["a.png", "b.txt", "c.png"] : List String).countP
        (fun f => (f ≠ "b.txt" : Bool) && !((f = "a.png" : Bool))) : ℤ) ∧
    (ProcessDirectoryStats (fun f => ⟨f, "", f = "a.png", none⟩)
        (fun f => f ≠ "b.txt") ["a.png", "b.txt", "c.png"] ["c.png", "a.png"]).Skipped =
      ((["a.png", "b.txt", "c.png"] : List String).countP
        (fun f => !((f ≠ "b.txt" : Bool))) : ℤ) ∧
    (ProcessDirectoryStats (fun f => ⟨f, "", f = "a.png", none⟩)
        (fun f => f ≠ "b.txt") ["a.png", "b.txt", "c.png"] ["c.png", "a.png"]).Total =
      ((["a.png", "b.txt", "c.png"] : List String).length : ℤ) :=
  ⟨by decide,
    c1_batch_stats_exact (fun f => ⟨f, "", f = "a.png", none⟩) (fun f => f ≠ "b.txt")
      ["a.png", "b.txt", "c.png"] ["c.png", "a.png"] (by decide)⟩

/-- C2: `ConvertImage` always returns a structured result carrying the
source path, with a cause exactly when it did not succeed (it is a
total function of its step outcomes — no failure escapes it); and in
the batch, for any per-file outcomes whatsoever, every dispatched file
is folded into the stats: `Total` is the full file count and
`Success + Failed` is the full dispatched count. -/
theorem c2_failure_isolation :
    (∀ (loader : String → Except String GoImage)
       (saver : GoImage → String → ImageFormat → ℤ → Except String Unit)
       (resample : GoImage → ℤ → ℤ → GoImage)
       (config : Config) (sourcePath outputDir : String),
      (ConvertImage loader saver resample config sourcePath outputDir).SourcePath =
          sourcePath ∧
      (((ConvertImage loader saver resample config sourcePath outputDir).Success = true ∧
        (ConvertImage loader saver resample config sourcePath outputDir).Error = none) ∨
       ((ConvertImage loader saver resample config sourcePath outputDir).Success = false ∧
        ∃ cause, (ConvertImage loader saver resample config sourcePath outputDir).Error =
          some cause))) ∧
    ∀ (convert : String → ConversionResult) (isImage : String → Bool)
      (files order : List String), order.Perm (files.filter isImage) →
      (ProcessDirectoryStats convert isImage files order).Total = (files.length : ℤ) ∧
      (ProcessDirectoryStats convert isImage files order).Success +
        (ProcessDirectoryStats convert isImage files order).Failed =
        ((files.filter isImage).length : ℤ) := by
  constructor
  · intro loader saver resample config sourcePath outputDir
    unfold ConvertImage
    rcases loader sourcePath with e | img
    · exact ⟨rfl, Or.inr ⟨rfl, _, rfl⟩⟩
    · simp only []
      rcases resolveOutputFormat config.Format sourcePath with e | f
      · exact ⟨rfl, Or.inr ⟨rfl, _, rfl⟩⟩
      · simp only []
        rcases saver (ResizeImage resample img ⟨config.Scale, config.Width, config.Height⟩)
            (GenerateOutputPath sourcePath outputDir f) f
            (if config.JPEGQuality = 0 then 85 else config.JPEGQuality) with e | u
        · exact ⟨rfl, Or.inr ⟨rfl, _, rfl⟩⟩
        · exact ⟨rfl, Or.inl ⟨rfl, rfl⟩⟩
  · intro convert isImage files order hperm
    obtain ⟨d1, d2, d3, d4⟩ :=
      drainStats_fields convert order (scanStats isImage files emptyStats)
    obtain ⟨s1, s2, s3, s4⟩ := scanStats_fields isImage files emptyStats
    have hlen : order.length = files.countP isImage := by
      rw [hperm.length_eq, ← List.countP_eq_length_filter]
    constructor
    · unfold ProcessDirectoryStats
      rw [d1, s1, hlen]
      have hsum := countP_add_countP_neg files isImage
      simp only [emptyStats]
      push_cast
      omega
    · unfold ProcessDirectoryStats
      rw [d2, d3, s3, s4]
      have hsum := countP_add_countP_neg order (fun f => (convert f).Success)
      rw [hperm.length_eq] at hsum
      simp only [emptyStats]
      push_cast
      omega

/-- Witness for C2 at a loader that always fails, concrete batch with
one failing image file and one non-image file. -/
theorem c2_failure_isolation_witness :
    ((ConvertImage (fun _ => Except.error "corrupt")
        (fun _ _ _ _ => Except.ok ()) (fun i _ _ => i)
        ⟨"", "", 0, 0, 0, "", 85⟩ "/in/c.png" "/out").SourcePath = "/in/c.png" ∧
     (((ConvertImage (fun _ => Except.error "corrupt")
          (fun _ _ _ _ => Except.ok ()) (fun i _ _ => i)
          ⟨"", "", 0, 0, 0, "", 85⟩ "/in/c.png" "/out").Success = true ∧
       (ConvertImage (fun _ => Except.error "corrupt")
          (fun _ _ _ _ => Except.ok ()) (fun i _ _ => i)
          ⟨"", "", 0, 0, 0, "", 85⟩ "/in/c.png" "/out").Error = none) ∨
      ((ConvertImage (fun _ => Except.error "corrupt")
          (fun _ _ _ _ => Except.ok ()) (fun i _ _ => i)
          ⟨"", "", 0, 0, 0, "", 85⟩ "/in/c.png" "/out").Success = false ∧
       ∃ cause, (ConvertImage (fun _ => Except.error "corrupt")
          (fun _ _ _ _ => Except.ok ()) (fun i _ _ => i)
          ⟨"", "", 0, 0, 0, "", 85⟩ "/in/c.png" "/out").Error = some cause))) ∧
    ((ProcessDirectoryStats (fun f => ⟨f, "", false, some "failed"⟩)
        (fun f => f ≠ "b.txt") ["c.png", "b.txt"] ["c.png"]).Total =
      ((["c.png", "b.txt"] : List String).length : ℤ) ∧
     (ProcessDirectoryStats (fun f => ⟨f, "", false, some "failed"⟩)
        (fun f => f ≠ "b.txt") ["c.png", "b.txt"] ["c.png"]).Success +
       (ProcessDirectoryStats (fun f => ⟨f, "", false, some "failed"⟩)
          (fun f => f ≠ "b.txt") ["c.png", "b.txt"] ["c.png"]).Failed =
       (((["c.png", "b.txt"] : List String).filter (fun f => f ≠ "b.txt")).length : ℤ)) :=
  ⟨c2_failure_isolation.1 (fun _ => Except.error "corrupt")
      (fun _ _ _ _ => Except.ok ()) (fun i _ _ => i)
      ⟨"", "", 0, 0, 0, "", 85⟩ "/in/c.png" "/out",
   c2_failure_isolation.2 (fun f => ⟨f, "", false, some "failed"⟩)
      (fun f => f ≠ "b.txt") ["c.png", "b.txt"] ["c.png"] (by decide)⟩

/-- C5: with a positive scale factor, `CalculateOutputSize` returns
exactly `(round(srcW*scale), round(srcH*scale))` with round half away
from zero, regardless of the width/height fields (highest priority);
and for every positive source size some positive scale yields `(0,0)`. -/
theorem c5_scale_rule_exact (srcW srcH : ℤ) (scale : ℚ) (w h : ℤ)
    (hsw : 0 < srcW) (hsh : 0 < srcH) (hs : 0 < scale) :
    CalculateOutputSize srcW srcH ⟨scale, w, h⟩ =
      (goRound ((srcW : ℚ) * scale), goRound ((srcH : ℚ) * scale)) ∧
    ∃ s : ℚ, 0 < s ∧ CalculateOutputSize srcW srcH ⟨s, 0, 0⟩ = (0, 0) := by
  constructor
  · unfold CalculateOutputSize
    rw [if_pos hs]
  · have hT : (0 : ℚ) < (srcW : ℚ) + (srcH : ℚ) := by
      have h1 : (0 : ℚ) < (srcW : ℚ) := by exact_mod_cast hsw
      have h2 : (0 : ℚ) < (srcH : ℚ) := by exact_mod_cast hsh
      linarith
    refine ⟨1 / (2 * ((srcW : ℚ) + (srcH : ℚ))), by positivity, ?_⟩
    have h1 : (0 : ℚ) < (srcW : ℚ) := by exact_mod_cast hsw
    have h2 : (0 : ℚ) < (srcH : ℚ) := by exact_mod_cast hsh
    have hs' : (0 : ℚ) < 1 / (2 * ((srcW : ℚ) + (srcH : ℚ))) := by positivity
    unfold CalculateOutputSize
    rw [if_pos hs']
    have hw0 : goRound ((srcW : ℚ) * (1 / (2 * ((srcW : ℚ) + (srcH : ℚ))))) = 0 := by
      apply goRound_eq_zero_of_lt_half (by positivity)
      rw [mul_one_div, div_lt_iff (by positivity)]
      nlinarith
    have hh0 : goRound ((srcH : ℚ) * (1 / (2 * ((srcW : ℚ) + (srcH : ℚ))))) = 0 := by
      apply goRound_eq_zero_of_lt_half (by positivity)
      rw [mul_one_div, div_lt_iff (by positivity)]
      nlinarith
    simp only [mul_one_div] at hw0 hh0 ⊢
    rw [hw0, hh0]

/-- Witness for C5 at srcW=100, srcH=100, scale=1/2. -/
theorem c5_scale_rule_exact_witness :
    (0 : ℤ) < 100 ∧ (0 : ℚ) < 1/2 ∧
    (CalculateOutputSize 100 100 ⟨1/2, 0, 0⟩ =
      (goRound ((100 : ℚ) * (1/2)), goRound ((100 : ℚ) * (1/2))) ∧
     ∃ s : ℚ, 0 < s ∧ CalculateOutputSize 100 100 ⟨s, 0, 0⟩ = (0, 0)) :=
  ⟨by decide, by norm_num,
    c5_scale_rule_exact 100 100 (1/2) 0 0 (by decide) (by decide) (by norm_num)⟩

/-- C4: with both width and height set (scale unset), the output is
`round(src * min(boxW/srcW, boxH/srcH))` in both dimensions, it fits in
the box, and at least one dimension meets its bound exactly. -/
theorem c4_bounding_box_fit (srcW srcH boxW boxH : ℤ)
    (hsw : 0 < srcW) (hsh : 0 < srcH) (hbw : 0 < boxW) (hbh : 0 < boxH) :
    CalculateOutputSize srcW srcH ⟨0, boxW, boxH⟩ =
      (goRound ((srcW : ℚ) * min ((boxW : ℚ) / (srcW : ℚ)) ((boxH : ℚ) / (srcH : ℚ))),
       goRound ((srcH : ℚ) * min ((boxW : ℚ) / (srcW : ℚ)) ((boxH : ℚ) / (srcH : ℚ)))) ∧
    (CalculateOutputSize srcW srcH ⟨0, boxW, boxH⟩).1 ≤ boxW ∧
    (CalculateOutputSize srcW srcH ⟨0, boxW, boxH⟩).2 ≤ boxH ∧
    ((CalculateOutputSize srcW srcH ⟨0, boxW, boxH⟩).1 = boxW ∨
     (CalculateOutputSize srcW srcH ⟨0, boxW, boxH⟩).2 = boxH) := by
  have h1 : (0 : ℚ) < (srcW : ℚ) := by exact_mod_cast hsw
  have h2 : (0 : ℚ) < (srcH : ℚ) := by exact_mod_cast hsh
  have h3 : (0 : ℚ) < (boxW : ℚ) := by exact_mod_cast hbw
  have h4 : (0 : ℚ) < (boxH : ℚ) := by exact_mod_cast hbh
  have hcalc : CalculateOutputSize srcW srcH ⟨0, boxW, boxH⟩ =
      (goRound ((srcW : ℚ) * min ((boxW : ℚ) / (srcW : ℚ)) ((boxH : ℚ) / (srcH : ℚ))),
       goRound ((srcH : ℚ) * min ((boxW : ℚ) / (srcW : ℚ)) ((boxH : ℚ) / (srcH : ℚ)))) := by
    unfold CalculateOutputSize
    rw [if_neg (by norm_num), if_pos ⟨hbw, hbh⟩]
  set m : ℚ := min ((boxW : ℚ) / (srcW : ℚ)) ((boxH : ℚ) / (srcH : ℚ)) with hm
  have hm0 : 0 ≤ m := le_min (by positivity) (by positivity)
  have hWexact : (srcW : ℚ) * ((boxW : ℚ) / (srcW : ℚ)) = (boxW : ℚ) := by
    field_simp
  have hHexact : (srcH : ℚ) * ((boxH : ℚ) / (srcH : ℚ)) = (boxH : ℚ) := by
    field_simp
  have hWle : (srcW : ℚ) * m ≤ (boxW : ℚ) := by
    calc (srcW : ℚ) * m ≤ (srcW : ℚ) * ((boxW : ℚ) / (srcW : ℚ)) :=
          mul_le_mul_of_nonneg_left (min_le_left _ _) (le_of_lt h1)
      _ = (boxW : ℚ) := hWexact
  have hHle : (srcH : ℚ) * m ≤ (boxH : ℚ) := by
    calc (srcH : ℚ) * m ≤ (srcH : ℚ) * ((boxH : ℚ) / (srcH : ℚ)) :=
          mul_le_mul_of_nonneg_left (min_le_right _ _) (le_of_lt h2)
      _ = (boxH : ℚ) := hHexact
  refine ⟨hcalc, ?_, ?_, ?_⟩
  · rw [hcalc]
    calc goRound ((srcW : ℚ) * m) ≤ goRound ((boxW : ℤ) : ℚ) :=
          goRound_mono_of_nonneg (by positivity) hWle
      _ = boxW := goRound_intCast boxW
  · rw [hcalc]
    calc goRound ((srcH : ℚ) * m) ≤ goRound ((boxH : ℤ) : ℚ) :=
          goRound_mono_of_nonneg (by positivity) hHle
      _ = boxH := goRound_intCast boxH
  · rw [hcalc]
    rcases min_choice ((boxW : ℚ) / (srcW : ℚ)) ((boxH : ℚ) / (srcH : ℚ)) with hc | hc
    · left
      rw [show (srcW : ℚ) * m = ((boxW : ℤ) : ℚ) by rw [hm, hc]; exact hWexact]
      exact goRound_intCast boxW
    · right
      rw [show (srcH : ℚ) * m = ((boxH : ℤ) : ℚ) by rw [hm, hc]; exact hHexact]
      exact goRound_intCast boxH

/-- Witness for C4 at src 200x100, box 100x100. -/
theorem c4_bounding_box_fit_witness :
    (0 : ℤ) < 200 ∧
    (CalculateOutputSize 200 100 ⟨0, 100, 100⟩ =
      (goRound ((200 : ℚ) * min ((100 : ℚ) / (200 : ℚ)) ((100 : ℚ) / (100 : ℚ))),
       goRound ((100 : ℚ) * min ((100 : ℚ) / (200 : ℚ)) ((100 : ℚ) / (100 : ℚ)))) ∧
     (CalculateOutputSize 200 100 ⟨0, 100, 100⟩).1 ≤ 100 ∧
     (CalculateOutputSize 200 100 ⟨0, 100, 100⟩).2 ≤ 100 ∧
     ((CalculateOutputSize 200 100 ⟨0, 100, 100⟩).1 = 100 ∨
      (CalculateOutputSize 200 100 ⟨0, 100, 100⟩).2 = 100)) :=
  ⟨by decide,
    c4_bounding_box_fit 200 100 100 100 (by decide) (by decide) (by decide) (by decide)⟩

/-- C6: with only a positive width requested (scale and height unset),
the output width is exactly the request and the height is
`round(srcH * width/srcW)`; symmetrically for height only. -/
theorem c6_single_dimension_rule (srcW srcH t : ℤ)
    (hsw : 0 < srcW) (hsh : 0 < srcH) (ht : 0 < t) :
    CalculateOutputSize srcW srcH ⟨0, t, 0⟩ =
      (t, goRound ((srcH : ℚ) * ((t : ℚ) / (srcW : ℚ)))) ∧
    CalculateOutputSize srcW srcH ⟨0, 0, t⟩ =
      (goRound ((srcW : ℚ) * ((t : ℚ) / (srcH : ℚ))), t) := by
  constructor
  · unfold CalculateOutputSize
    rw [if_neg (by norm_num), if_neg (by simp), if_pos ht]
  · unfold CalculateOutputSize
    rw [if_neg (by norm_num), if_neg (by simp), if_neg (by simp), if_pos ht]

/-- Witness for C6 at src 200x100, target 100. -/
theorem c6_single_dimension_rule_witness :
    (0 : ℤ) < 100 ∧
    (CalculateOutputSize 200 100 ⟨0, 100, 0⟩ =
      (100, goRound ((100 : ℚ) * ((100 : ℚ) / (200 : ℚ)))) ∧
     CalculateOutputSize 200 100 ⟨0, 0, 100⟩ =
      (goRound ((200 : ℚ) * ((100 : ℚ) / (100 : ℚ))), 100)) :=
  ⟨by decide, c6_single_dimension_rule 200 100 100 (by decide) (by decide) (by decide)⟩

/-- C7: an all-zero resize request leaves the dimensions unchanged and
`ResizeImage` returns the original buffer without resampling; and
whenever the computed destination dimensions equal the source
dimensions, `ResizeImage` returns the original buffer. -/
theorem c7_resize_identity (resample : GoImage → ℤ → ℤ → GoImage)
    (src : GoImage) (rs : ResizeSpec) :
    CalculateOutputSize src.width src.height ⟨0, 0, 0⟩ = (src.width, src.height) ∧
    ResizeImage resample src ⟨0, 0, 0⟩ = src ∧
    (CalculateOutputSizeFromImage src rs = (src.width, src.height) →
      ResizeImage resample src rs = src) := by
  refine ⟨?_, ?_, ?_⟩
  · unfold CalculateOutputSize
    norm_num
  · unfold ResizeImage
    norm_num
  · intro h
    unfold ResizeImage
    by_cases hz : rs.Scale = 0 ∧ rs.Width = 0 ∧ rs.Height = 0
    · rw [if_pos hz]
    · rw [if_neg hz]
      simp only [h]
      norm_num

/-- Witness for C7 at a 10x5 image with scale 1 (destination equals
source, so the original buffer is returned). -/
theorem c7_resize_identity_witness :
    CalculateOutputSize (10 : ℤ) 5 ⟨0, 0, 0⟩ = (10, 5) ∧
    ResizeImage (fun _ w h => ⟨w, h, []⟩) ⟨10, 5, [1, 2]⟩ ⟨0, 0, 0⟩ = ⟨10, 5, [1, 2]⟩ ∧
    ResizeImage (fun _ w h => ⟨w, h, []⟩) ⟨10, 5, [1, 2]⟩ ⟨1, 0, 0⟩ = ⟨10, 5, [1, 2]⟩ :=
  ⟨(c7_resize_identity (fun _ w h => ⟨w, h, []⟩) ⟨10, 5, [1, 2]⟩ ⟨1, 0, 0⟩).1,
   (c7_resize_identity (fun _ w h => ⟨w, h, []⟩) ⟨10, 5, [1, 2]⟩ ⟨1, 0, 0⟩).2.1,
   (c7_resize_identity (fun _ w h => ⟨w, h, []⟩) ⟨10, 5, [1, 2]⟩ ⟨1, 0, 0⟩).2.2
     (by norm_num [CalculateOutputSizeFromImage, CalculateOutputSize, goRound])⟩

/-! ### Path and format lemmas -/

theorem extAux_no_dot (l : List Char) (h : ∀ c ∈ l, c ≠ '.' ∧ c ≠ '/') :
    ∀ (rest acc : List Char), extAux (l ++ rest) acc = extAux rest (l.reverse ++ acc) := by
  induction l with
  | nil => intro rest acc; simp
  | cons c t ih =>
    intro rest acc
    have hc := h c (List.mem_cons_self c t)
    simp only [List.cons_append, extAux, if_neg hc.1, if_neg hc.2, List.append_eq]
    rw [ih (fun x hx => h x (List.mem_cons_of_mem c hx)) rest (c :: acc)]
    simp

theorem goExt_append_dotext (b : String) (t : List Char)
    (h : ∀ c ∈ t, c ≠ '.' ∧ c ≠ '/') :
    goExt (b ++ String.mk ('.' :: t)) = String.mk ('.' :: t) := by
  have hdata : (b ++ String.mk ('.' :: t)).data = b.data ++ ('.' :: t) :=
    String.data_append b (String.mk ('.' :: t))
  have haux : extAux (b.data ++ ('.' :: t)).reverse [] = some ('.' :: t) := by
    rw [List.reverse_append]
    rw [show ('.' :: t).reverse = t.reverse ++ ['.'] from by simp]
    rw [List.append_assoc]
    rw [extAux_no_dot t.reverse (fun c hc => h c (List.mem_reverse.mp hc))]
    simp [extAux]
  unfold goExt
  rw [hdata, haux]

theorem goTrimSuffix_append (b e : String) : goTrimSuffix (b ++ e) e = b := by
  have hsuf : e.data.isSuffixOf (b ++ e).data = true := by
    rw [String.data_append]
    simp [List.isSuffixOf]
  unfold goTrimSuffix
  rw [if_pos hsuf, String.data_append]
  simp only [List.length_append]
  rw [show b.data.length + e.data.length - e.data.length = b.data.length from by omega]
  rw [List.take_left]

/-! ### Claim theorems: format resolver and classifier -/

/-- C8: `GenerateOutputPath` is the pure transform joining, under the
output directory, the source base name stripped of its extension with
the canonical extension of the output format; the extension of the
produced file name is exactly the canonical one and stripping it
recovers the source base name, so the base name is invariant under any
format change. -/
theorem c8_output_path_preserves_base (p dir : String) (f : ImageFormat)
    (hf : f ∈ supportedOutputFormats) :
    GenerateOutputPath p dir f =
      goJoin dir (goTrimSuffix (goBase p) (goExt (goBase p)) ++ canonicalExt f) ∧
    goExt (GenerateOutputFilename p f) = canonicalExt f ∧
    goTrimSuffix (GenerateOutputFilename p f) (goExt (GenerateOutputFilename p f)) =
      goTrimSuffix (goBase p) (goExt (goBase p)) := by
  have hext : ∃ t : List Char,
      canonicalExt f = String.mk ('.' :: t) ∧ ∀ c ∈ t, c ≠ '.' ∧ c ≠ '/' := by
    simp only [supportedOutputFormats, List.mem_cons, List.not_mem_nil, or_false] at hf
    rcases hf with rfl | rfl | rfl | rfl | rfl
    · exact ⟨['j', 'p', 'g'], by decide, by decide⟩
    · exact ⟨['p', 'n', 'g'], by decide, by decide⟩
    · exact ⟨['w', 'e', 'b', 'p'], by decide, by decide⟩
    · exact ⟨['g', 'i', 'f'], by decide, by decide⟩
    · exact ⟨['b', 'm', 'p'], by decide, by decide⟩
  obtain ⟨t, ht, htc⟩ := hext
  have hfile : GenerateOutputFilename p f =
      goTrimSuffix (goBase p) (goExt (goBase p)) ++ canonicalExt f := rfl
  have h2 : goExt (GenerateOutputFilename p f) = canonicalExt f := by
    rw [hfile, ht]
    exact goExt_append_dotext _ t htc
  refine ⟨rfl, h2, ?_⟩
  rw [h2, hfile]
  exact goTrimSuffix_append _ _

/-- Witness for C8: `photo.jpg` converted to `png` under `/output`
yields `/output/photo.png`. -/
theorem c8_output_path_preserves_base_witness :
    FormatPNG ∈ supportedOutputFormats ∧
    (GenerateOutputPath "photo.jpg" "/output" FormatPNG =
      goJoin "/output"
        (goTrimSuffix (goBase "photo.jpg") (goExt (goBase "photo.jpg")) ++
          canonicalExt FormatPNG) ∧
     goExt (GenerateOutputFilename "photo.jpg" FormatPNG) = canonicalExt FormatPNG ∧
     goTrimSuffix (GenerateOutputFilename "photo.jpg" FormatPNG)
         (goExt (GenerateOutputFilename "photo.jpg" FormatPNG)) =
       goTrimSuffix (goBase "photo.jpg") (goExt (goBase "photo.jpg"))) ∧
    GenerateOutputPath "photo.jpg" "/output" FormatPNG = "/output/photo.png" :=
  ⟨by decide,
   c8_output_path_preserves_base "photo.jpg" "/output" FormatPNG (by decide),
   by decide⟩

/-- C10: a path passes the file classifier `IsImageFile` exactly when
`DetectFormat` succeeds on it — the classifier allow-list and the
detector's supported-extension set coincide, so the detector's
unsupported-format error is unreachable for dispatched files. -/
theorem c10_classifier_detector_agree (p : String) :
    (∃ f, DetectFormat p = Except.ok f) ↔ IsImageFile p = true := by
  constructor
  · rintro ⟨f, hf⟩
    simp only [DetectFormat] at hf
    by_cases h1 : toLowerStr (goExt p) = ".jpg" ∨ toLowerStr (goExt p) = ".jpeg"
    · simp only [IsImageFile, imageExtensions]
      simp
      tauto
    · rw [if_neg h1] at hf
      by_cases h2 : toLowerStr (goExt p) = ".png"
      · simp [IsImageFile, imageExtensions, h2]
      · rw [if_neg h2] at hf
        by_cases h3 : toLowerStr (goExt p) = ".webp"
        · simp [IsImageFile, imageExtensions, h3]
        · rw [if_neg h3] at hf
          by_cases h4 : toLowerStr (goExt p) = ".gif"
          · simp [IsImageFile, imageExtensions, h4]
          · rw [if_neg h4] at hf
            by_cases h5 : toLowerStr (goExt p) = ".bmp"
            · simp [IsImageFile, imageExtensions, h5]
            · rw [if_neg h5] at hf
              exact absurd hf (by simp)
  · intro hImg
    simp only [IsImageFile, imageExtensions] at hImg
    simp at hImg
    rcases hImg with h | h | h | h | h | h
    · exact ⟨FormatJPEG, by simp [DetectFormat, h]⟩
    · exact ⟨FormatJPEG, by simp [DetectFormat, h]⟩
    · exact ⟨FormatPNG, by simp [DetectFormat, h]⟩
    · exact ⟨FormatGIF, by simp [DetectFormat, h]⟩
    · exact ⟨FormatBMP, by simp [DetectFormat, h]⟩
    · exact ⟨FormatWebP, by simp [DetectFormat, h]⟩

/-- Witness for C10 at `a.png`: classified as an image and detected
successfully. -/
theorem c10_classifier_detector_agree_witness :
    IsImageFile "a.png" = true ∧ ∃ f, DetectFormat "a.png" = Except.ok f :=
  ⟨by decide, (c10_classifier_detector_agree "a.png").mpr (by decide)⟩

/-- C9 counterexample: with the explicitly requested unsupported format
`tiff`, format resolution succeeds (`NormalizeFormat` validates
nothing), the save step is reached, and the conversion fails there with
the saver's unsupported-output-format error — not at the
format-resolution step. -/
theorem c9_counterexample_explicit_format :
    resolveOutputFormat "tiff" "/in/a.png" = Except.ok "tiff" ∧
    (ConvertImage (fun _ => Except.ok ⟨1, 1, []⟩)
        (goSave (fun _ => Except.ok ()) (fun _ _ _ => Except.ok ()))
        (fun i _ _ => i) ⟨"", "", 0, 0, 0, "tiff", 85⟩ "/in/a.png" "/out").Success =
      false ∧
    (ConvertImage (fun _ => Except.ok ⟨1, 1, []⟩)
        (goSave (fun _ => Except.ok ()) (fun _ _ _ => Except.ok ()))
        (fun i _ _ => i) ⟨"", "", 0, 0, 0, "tiff", 85⟩ "/in/a.png" "/out").Error =
      some "failed to save image: unsupported output format: tiff" :=
  ⟨rfl, rfl, rfl⟩

/-- C9 (amended): an explicitly configured format never fails at the
format-resolution step (`NormalizeFormat` normalizes without
validating; an unsupported explicit format fails later, at the save
step); when no format is configured and the source extension is
unsupported, the conversion fails at the format-resolution step with
the wrapped detection error, before any encoding, uniformly in the
saver. -/
theorem c9_amended_format_resolution (loader : String → Except String GoImage)
    (saver : GoImage → String → ImageFormat → ℤ → Except String Unit)
    (resample : GoImage → ℤ → ℤ → GoImage) (cfg : Config) (p dir : String) :
    (cfg.Format ≠ "" →
      resolveOutputFormat cfg.Format p = Except.ok (NormalizeFormat cfg.Format)) ∧
    (cfg.Format = "" → ∀ e img, DetectFormat p = Except.error e →
      loader p = Except.ok img →
      ConvertImage loader saver resample cfg p dir =
        { SourcePath := p, OutputPath := "", Success := false,
          Error := some ("failed to detect format: " ++ e) }) := by
  constructor
  · intro h
    unfold resolveOutputFormat
    rw [if_pos h]
  · intro hfmt e img hdet hload
    have hres : resolveOutputFormat cfg.Format p =
        Except.error ("failed to detect format: " ++ e) := by
      unfold resolveOutputFormat
      rw [if_neg (by simp [hfmt]), hdet]
    unfold ConvertImage
    rw [hload, hres]

/-- Witness for C9 (amended): explicit `png` resolves without error;
with no configured format, a `.txt` source fails at format resolution
with the detection error. -/
theorem c9_amended_format_resolution_witness :
    resolveOutputFormat "png" "/in/a.txt" = Except.ok (NormalizeFormat "png") ∧
    ConvertImage (fun _ => Except.ok ⟨1, 1, []⟩) (fun _ _ _ _ => Except.ok ())
        (fun i _ _ => i) ⟨"", "", 0, 0, 0, "", 85⟩ "/in/b.txt" "/out" =
      { SourcePath := "/in/b.txt", OutputPath := "", Success := false,
        Error := some ("failed to detect format: " ++ "unsupported image format: .txt") } :=
  ⟨(c9_amended_format_resolution (fun _ => Except.ok ⟨1, 1, []⟩)
      (fun _ _ _ _ => Except.ok ()) (fun i _ _ => i)
      ⟨"", "", 0, 0, 0, "png", 85⟩ "/in/a.txt" "/out").1 (by decide),
   (c9_amended_format_resolution (fun _ => Except.ok ⟨1, 1, []⟩)
      (fun _ _ _ _ => Except.ok ()) (fun i _ _ => i)
      ⟨"", "", 0, 0, 0, "", 85⟩ "/in/b.txt" "/out").2 rfl
      "unsupported image format: .txt" ⟨1, 1, []⟩ (by rfl) (by rfl)⟩

end ImageConverter
